import Mathlib

/-!
Verification of the myelin wasm-loading-test harness
(src/visualization-client/scripts/wasm-loading-test/main.py and
src/scripts/start-simulation.py) against its natural-language
specification.

The Python code is shallowly embedded: module constants become Lean
constants, the cancellation token (a threading.Event) becomes a boolean
state with the two operations the code exposes, the process-supervision
loop of _start_process becomes a fuel-indexed recursion over the
supervised process's poll trace and the token's trace, the readiness
poller of _poll_visualization_server becomes a fuel-indexed recursion over
a trace of connection-attempt results, and the console-log evaluation step
of _start_webdriver becomes a pure function on the list of log lines.
-/

namespace Myelin

/-- Module constant HTTP_PORT of main.py (line 17). -/
def httpPort : Nat := 8081

/-- Module constant _WEBSOCKET_PORT of main.py (line 19). -/
def websocketPort : Nat := 6956

/-- Module constant SERVER_CRATE of main.py (line 18). -/
def serverCrate : String := "myelin-visualization-server"

/-- Command line of the backend participant, built at main.py line 57. -/
def websocketServerCommand : List String := ["cargo", "run", "-p", serverCrate]

/-- Module constant _BEGIN_LOGS_MARKER of main.py (line 20). -/
def beginLogsMarker : String := "----- BEGIN LOGS -----"

/-- The sentinel line searched for in the captured log,
f-string at main.py lines 111-112. -/
def markerLogLine : String := "console.log: \"" ++ beginLogsMarker ++ "\""

/-!
## Cancellation token (main.py lines 28-46)

_CancellationToken and _CancellationTokenSource are two views over one
shared threading.Event; the Event is a boolean flag with set() and
is_set().  The state of a token/source pair is that single boolean.
-/

/-- State of the shared threading.Event backing a token/source pair. -/
structure PyEvent where
  flag : Bool
deriving DecidableEq

/-- Python Event.set: sets the internal flag (no way to clear it is ever
called in the harness; the classes expose no reset). -/
def eventSet (_ : PyEvent) : PyEvent := ⟨true⟩

/-- Python Event.is_set: reads the internal flag. -/
def eventIsSet (e : PyEvent) : Bool := e.flag

/-- Embedding of _CancellationTokenSource.cancel (main.py line 40-41). -/
def cancelSource (e : PyEvent) : PyEvent := eventSet e

/-- Embedding of _CancellationToken.is_cancelled (main.py line 32-33). -/
def isCancelled (e : PyEvent) : Bool := eventIsSet e

/-- Embedding of _create_cancellation_token (main.py lines 44-46): the
fresh shared Event starts unset. -/
def freshTokenState : PyEvent := ⟨false⟩

/-- The two operations any holder of the token pair can perform on the
shared state. -/
inductive TokenOp where
  | opCancel
  | opQuery
deriving DecidableEq

/-- Effect of one operation on the shared Event state: cancel() sets the
flag, is_cancelled() reads it and leaves the state unchanged. -/
def tokenStep (e : PyEvent) : TokenOp → PyEvent
  | .opCancel => cancelSource e
  | .opQuery => e

/-!
## Managed process supervision (_start_process, main.py lines 61-71)

The supervised OS process is characterised by its poll trace
`behavior : Nat → Option Int`: at tick t, process.poll() returns none
while the process is still running and some c once it has exited with
code c.  The token's value at tick t is `token t : Bool`.  The loop body
at each tick is, exactly as in the source:

  if cancellation_token.is_cancelled():
      process.send_signal(signal.SIGTERM); process.wait(); break
  returncode = process.poll()
  if returncode:           -- Python truthiness: nonzero int only
      raise subprocess.CalledProcessError(command, returncode)
  time.sleep(0.1)

The `with subprocess.Popen(...) as process` context manager calls
process.wait() on exit from the block, on the exception path too.
-/

/-- A dynamically typed Python value, as far as the harness needs: the
arguments handed to CalledProcessError. -/
inductive PyVal where
  | int (n : Int)
  | strList (l : List String)
deriving DecidableEq

/-- Python subprocess.CalledProcessError.  Its documented constructor
signature is CalledProcessError(returncode, cmd): the FIRST positional
argument is stored in the returncode attribute, the SECOND in cmd. -/
structure CalledProcessError where
  returncode : PyVal
  cmd : PyVal
deriving DecidableEq

/-- State of the Popen handle as the supervisor leaves it: the exit code
the OS process ended with (none if still running) and whether it has been
reaped by a wait(). -/
structure ProcHandle where
  exitCode : Option Int
  reaped : Bool
deriving DecidableEq

/-- Popen.send_signal(SIGTERM): if the process has already exited the
call is a no-op (Popen.send_signal polls first and skips dead processes);
otherwise the process is terminated by the signal (modelled as exit code
-15, the negated signal number, as Popen reports it). -/
def sendSigterm (p : ProcHandle) : ProcHandle :=
  match p.exitCode with
  | some _ => p
  | none => { p with exitCode := some (-15) }

/-- Popen.wait on a process that is no longer running: reaps it and
caches the return code. -/
def waitProc (p : ProcHandle) : ProcHandle := { p with reaped := true }

/-- Outcome of the supervision loop of _start_process together with the
final state of the process handle.  outOfFuel means the loop was still
polling after the given number of ticks. -/
inductive SupOutcome where
  | cancelled (finalProc : ProcHandle)
  | raisedAbnormal (e : CalledProcessError) (finalProc : ProcHandle)
  | outOfFuel
deriving DecidableEq

/-- One supervision loop of _start_process (main.py lines 61-71), started
at tick t and run for at most fuel ticks.  On the cancellation branch the
code sends SIGTERM, waits, breaks out of the loop, and the with-block
exit waits again.  On the truthy-returncode branch the code raises
CalledProcessError(command, returncode) -- note the arguments are passed
in that order, so the command list lands in the returncode field and the
integer exit status in the cmd field -- and the with-block exit reaps the
process while the exception propagates.  A returncode of 0 is falsy in
Python, exactly like the None of a still-running process, so both fall
through to the sleep and the next tick. -/
def superviseFrom (command : List String) (token : Nat → Bool)
    (behavior : Nat → Option Int) (t : Nat) : Nat → SupOutcome
  | 0 => .outOfFuel
  | fuel + 1 =>
    if token t then
      .cancelled (waitProc (waitProc (sendSigterm ⟨behavior t, false⟩)))
    else
      match behavior t with
      | some rc =>
        if rc = 0 then
          superviseFrom command token behavior (t + 1) fuel
        else
          .raisedAbnormal ⟨.strList command, .int rc⟩ (waitProc ⟨some rc, false⟩)
      | none => superviseFrom command token behavior (t + 1) fuel

/-- The supervision loop returns (by break or by raising) within some
number of ticks. -/
def superviseReturns (command : List String) (token : Nat → Bool)
    (behavior : Nat → Option Int) (t : Nat) : Prop :=
  ∃ fuel, superviseFrom command token behavior t fuel ≠ .outOfFuel

/-!
## Browser probe log evaluation (_start_webdriver, main.py lines 108-123)

After the grace periods the probe reads the geckodriver log file as a
list of lines and evaluates it:

  index_of_start_marker = log_lines.index(f'console.log: ":marker:"')
  log_lines = log_lines[index_of_start_marker:]
  severe_messages = [msg for msg in log_lines
                     if msg.startswith('console.error:')]
  if not len(severe_messages) == 0: print ...; sys.exit(1)

list.index raises ValueError when the marker line is absent; that is the
none case of the embedding.
-/

/-- A log line is severe when it carries the console.error: level tag
(the filter in main.py lines 115-116; Python str.startswith, embedded as
the prefix test on the character sequences of the two strings). -/
def isSevere (msg : String) : Bool :=
  List.isPrefixOf "console.error:".data msg.data

/-- Terminal verdict of the probe's log evaluation step. -/
inductive ProbeLogOutcome where
  | passed
  | failedSevere (messages : List String)
deriving DecidableEq

/-- Python list.index restricted to lists of strings: index of the first
occurrence of the target, none modelling the ValueError raised when the
target does not occur. -/
def indexOfLine (target : String) : List String → Option Nat
  | [] => none
  | l :: rest =>
    if l == target then some 0
    else (indexOfLine target rest).map (· + 1)

/-- Embedding of the log-evaluation step of _start_webdriver (main.py
lines 108-123): find the first line equal to the sentinel line, keep the
lines at or after it, collect those tagged console.error:, and exit 1
when any were collected.  Returns none when the sentinel is absent,
modelling the ValueError that list.index raises. -/
def evaluateLog (logLines : List String) : Option ProbeLogOutcome :=
  match indexOfLine markerLogLine logLines with
  | none => none
  | some i =>
    let retained := logLines.drop i
    let severeMessages := retained.filter isSevere
    if severeMessages.length = 0 then some .passed
    else some (.failedSevere severeMessages)

/-!
## Readiness poller (_poll_visualization_server, main.py lines 129-139)

Each iteration attempts create_connection(('localhost', 6956)).  The
trace `attempt : Nat → AttemptResult` gives the result of the n-th
attempt.  On success the loop breaks and the finally block closes the
connection; on ConnectionRefusedError it sleeps 0.1 s and retries; any
other exception propagates out of the loop (the finally block has
nothing to close, since create_connection raised before binding).
-/

/-- Result of one create_connection attempt. -/
inductive AttemptResult where
  | success
  | refused
  | otherError
deriving DecidableEq

/-- Outcome of the readiness-poll loop: connected (recording whether the
connection was closed on the way out, and how many attempts were made),
a propagated non-refused error (with the attempts made), or still
retrying after fuel attempts. -/
inductive PollOutcome where
  | connected (connClosed : Bool) (attemptsUsed : Nat)
  | fatal (attemptsUsed : Nat)
  | fuelExhausted
deriving DecidableEq

/-- Embedding of _poll_visualization_server (main.py lines 129-139),
examining attempts n, n+1, ... for at most fuel iterations. -/
def pollServerFrom (attempt : Nat → AttemptResult) (n : Nat) :
    Nat → PollOutcome
  | 0 => .fuelExhausted
  | fuel + 1 =>
    match attempt n with
    | .success => .connected true (n + 1)
    | .refused => pollServerFrom attempt (n + 1) fuel
    | .otherError => .fatal (n + 1)

/-!
## Harness coordinator (main.py lines 142-153)

  with ThreadPoolExecutor(max_workers=3) as pool:
      source, token = _create_cancellation_token()
      futures = [pool.submit(_start_http_server, token),
                 pool.submit(_start_websocket_server, token),
                 pool.submit(_start_webdriver)]
      done, _ = wait(futures, return_when=FIRST_COMPLETED)
      source.cancel()
      [future.result() for future in done]

Only the futures in the first-completed set `done` have their results
retrieved; an exception stored in any other future is never re-raised.
The list comprehension re-raises the first stored exception it meets, in
the order of `done`; an uncaught exception makes the interpreter exit
with code 1 (sys.exit(1) from the probe likewise), and a clean fall
through ends the script with exit code 0.
-/

/-- The three participants submitted to the pool. -/
inductive Participant where
  | httpServer
  | websocketServer
  | webdriver
deriving DecidableEq

/-- Which submit call passes the shared cancellation token to its task
(main.py lines 145-149): _start_http_server and _start_websocket_server
receive it, _start_webdriver is submitted without it and its body never
mentions a token. -/
def receivesToken : Participant → Bool
  | .httpServer => true
  | .websocketServer => true
  | .webdriver => false

/-- Failure a participant's future can hold: a CalledProcessError raised
by _start_process, the AssertionError of the body-text check, the
SystemExit(1) of the severe-console-message path, or any other exception
out of the webdriver session. -/
inductive FailReason where
  | abnormalExit (e : CalledProcessError)
  | assertionFailed
  | severeConsoleMessages (msgs : List String)
  | otherError
deriving DecidableEq

/-- Embedding of `[future.result() for future in done]` (main.py line
153): retrieve the done futures in order and re-raise the first stored
exception, if any. -/
def collectDoneResults (result : Participant → Except FailReason Unit) :
    List Participant → Except FailReason Unit
  | [] => .ok ()
  | p :: rest =>
    match result p with
    | .error e => .error e
    | .ok _ => collectDoneResults result rest

/-- Exit code of the harness process given the outcome stored in each
participant's future and the first-completed set `done`: 0 when the
retrieval loop falls through, 1 when it re-raises (an uncaught exception
or SystemExit(1) terminates the interpreter with code 1). -/
def harnessExitCode (result : Participant → Except FailReason Unit)
    (done : List Participant) : Nat :=
  match collectDoneResults result done with
  | .ok _ => 0
  | .error _ => 1

/-- Specification-side notion used to compare against the code: the
first failure among the done participants, in order. -/
def firstFailureIn (result : Participant → Except FailReason Unit) :
    List Participant → Option FailReason
  | [] => none
  | p :: rest =>
    match result p with
    | .error e => some e
    | .ok _ => firstFailureIn result rest

/-!
## Entry points and the process interrupt

start-simulation.py lines 95-100:

  if __name__ == '__main__':
      args = _parse_arguments()
      try:
          start(...)
      except KeyboardInterrupt:
          sys.exit(0)

The wasm-loading-test main.py runs its coordinator at module level
(lines 142-153) with no try/except around it: a KeyboardInterrupt there
propagates out of the script uncaught.
-/

/-- How the supervised run of an entry point ends. -/
inductive RunOutcome where
  | completed
  | keyboardInterrupt
  | raisedError
deriving DecidableEq

/-- How the interpreter process terminates. -/
inductive Termination where
  | exitCode (n : Nat)
  | uncaughtInterrupt
  | uncaughtException
deriving DecidableEq

/-- Embedding of the start-simulation.py entry block (lines 95-100): a
completed run falls off the end (exit 0), a KeyboardInterrupt is caught
and answered with sys.exit(0), any other exception propagates uncaught. -/
def startSimulationEntry : RunOutcome → Termination
  | .completed => .exitCode 0
  | .keyboardInterrupt => .exitCode 0
  | .raisedError => .uncaughtException

/-- Embedding of the module-level coordinator of the wasm-loading-test
main.py (lines 142-153): no handler surrounds it, so a KeyboardInterrupt
propagates uncaught and terminates the interpreter abnormally, not with
exit code 0. -/
def wasmCoordinatorEntry : RunOutcome → Termination
  | .completed => .exitCode 0
  | .keyboardInterrupt => .uncaughtInterrupt
  | .raisedError => .uncaughtException

/-!
## Helper lemmas
-/

/-- Helper: once the shared Event flag is set, no token operation changes
the state. -/
theorem foldl_tokenStep_true (ops : List TokenOp) :
    List.foldl tokenStep ⟨true⟩ ops = ⟨true⟩ := by
  induction ops with
  | nil => rfl
  | cons op rest ih =>
    cases op <;> simpa [tokenStep, cancelSource, eventSet] using ih

/-- Helper: while the token stays unset and the process keeps reporting
exit code 0, the supervision loop never leaves its polling state,
because a 0 returncode is falsy exactly like the None of a running
process. -/
theorem superviseFrom_stalls (command : List String) (token : Nat → Bool)
    (behavior : Nat → Option Int) (hb : ∀ s, behavior s = some 0)
    (ht : ∀ s, token s = false) :
    ∀ fuel t, superviseFrom command token behavior t fuel =
      SupOutcome.outOfFuel := by
  intro fuel
  induction fuel with
  | zero => intro t; rfl
  | succ n ih =>
    intro t
    simp [superviseFrom, ht t, hb t]
    exact ih (t + 1)

/-- Helper: whichever way the supervision loop returns, the final process
handle records an exit code and has been reaped by a wait. -/
theorem superviseFrom_final_handle (command : List String) (token : Nat → Bool)
    (behavior : Nat → Option Int) :
    ∀ fuel t,
      (∀ p, superviseFrom command token behavior t fuel =
          SupOutcome.cancelled p → p.exitCode ≠ none ∧ p.reaped = true) ∧
      (∀ e p, superviseFrom command token behavior t fuel =
          SupOutcome.raisedAbnormal e p → p.exitCode ≠ none ∧ p.reaped = true) := by
  intro fuel
  induction fuel with
  | zero =>
    intro t
    exact ⟨fun p h => by simp [superviseFrom] at h,
           fun e p h => by simp [superviseFrom] at h⟩
  | succ n ih =>
    intro t
    by_cases htok : token t
    · refine ⟨?_, ?_⟩
      · intro p h
        simp [superviseFrom, htok] at h
        subst h
        cases hb : behavior t <;> simp [waitProc, sendSigterm, hb]
      · intro e p h
        simp [superviseFrom, htok] at h
    · cases hb : behavior t with
      | none =>
        refine ⟨fun p h => ?_, fun e p h => ?_⟩
        · simp [superviseFrom, htok, hb] at h
          exact (ih (t + 1)).1 p h
        · simp [superviseFrom, htok, hb] at h
          exact (ih (t + 1)).2 e p h
      | some rc =>
        by_cases hrc : rc = 0
        · subst hrc
          refine ⟨fun p h => ?_, fun e p h => ?_⟩
          · simp [superviseFrom, htok, hb] at h
            exact (ih (t + 1)).1 p h
          · simp [superviseFrom, htok, hb] at h
            exact (ih (t + 1)).2 e p h
        · refine ⟨fun p h => ?_, fun e p h => ?_⟩
          · simp [superviseFrom, htok, hb, hrc] at h
          · simp [superviseFrom, htok, hb, hrc] at h
            obtain ⟨he, hp⟩ := h
            subst hp
            simp [waitProc]

/-- Helper: Popen.send_signal on a process that has already exited is a
no-op. -/
theorem sendSigterm_noop_of_exited (q : ProcHandle) (h : q.exitCode ≠ none) :
    sendSigterm q = q := by
  obtain ⟨ec, rp⟩ := q
  cases ec with
  | none => simp at h
  | some c => rfl

/-- Helper: list.index finds nothing when the target occurs nowhere. -/
theorem indexOfLine_eq_none (target : String) (lines : List String)
    (h : ∀ l ∈ lines, l ≠ target) : indexOfLine target lines = none := by
  induction lines with
  | nil => rfl
  | cons l rest ih =>
    have hl : (l == target) = false := beq_eq_false_iff_ne.mpr (h l (by simp))
    simp [indexOfLine, hl]
    exact ih (fun x hx => h x (by simp [hx]))

/-- Helper: the retrieval loop over the done futures falls through
exactly when every done future holds a success. -/
theorem collectDoneResults_ok_iff (result : Participant → Except FailReason Unit)
    (done : List Participant) :
    collectDoneResults result done = Except.ok () ↔
      ∀ p ∈ done, result p = Except.ok () := by
  induction done with
  | nil => simp [collectDoneResults]
  | cons p rest ih =>
    cases hr : result p with
    | ok u =>
      cases u
      simp [collectDoneResults, hr, ih]
    | error e =>
      simp [collectDoneResults, hr]

/-- Helper: the retrieval loop re-raises e exactly when e is the first
failure among the done futures, in order. -/
theorem collectDoneResults_error_iff
    (result : Participant → Except FailReason Unit) (e : FailReason)
    (done : List Participant) :
    collectDoneResults result done = Except.error e ↔
      firstFailureIn result done = some e := by
  induction done with
  | nil => simp [collectDoneResults, firstFailureIn]
  | cons p rest ih =>
    cases hr : result p with
    | ok u =>
      cases u
      simp [collectDoneResults, firstFailureIn, hr, ih]
    | error e2 =>
      simp [collectDoneResults, firstFailureIn, hr]

/-!
## Claims
-/

/-- C1 counterexample: the Browser Probe task is submitted to the pool
without the shared cancellation token (main.py line 148) and its body
never consults one, so it is not a holder of the token and cannot
observe the cancellation; this refutes the claim that every remaining
participant, the Browser Probe in particular, observes cancellation
after the first completion. -/
theorem c1_webdriver_not_a_token_holder :
    receivesToken Participant.webdriver = false := rfl

/-- C1 amended: after the first completion the Coordinator cancels the
shared token; each participant that holds the token (the file-server and
backend supervisors, but not the Browser Probe) observes the
cancellation at its very next poll tick and completes immediately with
the Cancelled outcome. -/
theorem c1_token_holders_observe_within_one_tick (command : List String)
    (token : Nat → Bool) (behavior : Nat → Option Int) (t fuel : Nat)
    (h : token t = true) :
    (∃ p, superviseFrom command token behavior t (fuel + 1) =
        SupOutcome.cancelled p) ∧
    receivesToken Participant.httpServer = true ∧
    receivesToken Participant.websocketServer = true ∧
    receivesToken Participant.webdriver = false :=
  ⟨⟨waitProc (waitProc (sendSigterm ⟨behavior t, false⟩)),
    by simp [superviseFrom, h]⟩, rfl, rfl, rfl⟩

/-- C1 witness: with the token set from tick 0, a supervisor completes
with the Cancelled outcome on its first tick. -/
theorem c1_token_holders_observe_within_one_tick_witness :
    (∃ p, superviseFrom [] (fun _ => true) (fun _ => none) 0 (0 + 1) =
        SupOutcome.cancelled p) ∧
    receivesToken Participant.httpServer = true ∧
    receivesToken Participant.websocketServer = true ∧
    receivesToken Participant.webdriver = false :=
  c1_token_holders_observe_within_one_tick [] (fun _ => true) (fun _ => none)
    0 0 rfl

/-- C2 counterexample: a supervised process that exits with code zero
while the token stays unset never makes the supervision loop return:
a returncode of 0 is falsy in Python, so the loop treats it like a
still-running process and keeps polling; there is no Completed return. -/
theorem c2_zero_exit_loop_never_returns :
    ¬ superviseReturns websocketServerCommand (fun _ => false)
        (fun _ => some 0) 0 := by
  rintro ⟨fuel, hfuel⟩
  exact hfuel
    (superviseFrom_stalls _ _ _ (fun _ => rfl) (fun _ => rfl) fuel 0)

/-- C2 amended: when the supervised process reports exit code zero and
the token is never set, run_until_done_or_cancelled does not terminate
normally: it keeps polling for any number of ticks, because the code has
no branch for a zero exit code. -/
theorem c2_zero_exit_keeps_polling (command : List String)
    (token : Nat → Bool) (behavior : Nat → Option Int) (t fuel : Nat)
    (hb : ∀ s, behavior s = some 0) (ht : ∀ s, token s = false) :
    superviseFrom command token behavior t fuel = SupOutcome.outOfFuel :=
  superviseFrom_stalls command token behavior hb ht fuel t

/-- C2 witness: the backend supervisor, with its process exited at code
zero from the start and the token unset, is still polling after 25
ticks. -/
theorem c2_zero_exit_keeps_polling_witness :
    superviseFrom websocketServerCommand (fun _ => false) (fun _ => some 0)
        0 25 = SupOutcome.outOfFuel :=
  c2_zero_exit_keeps_polling websocketServerCommand (fun _ => false)
    (fun _ => some 0) 0 25 (fun _ => rfl) (fun _ => rfl)

/-- C3: at the failing input (backend process exits with code 101, token
unset) the supervisor does raise a CalledProcessError, but the raise
site passes (command, returncode) to a constructor whose documented
positional order is (returncode, cmd): the command list lands in the
returncode field and the integer exit status in the cmd field, so the
raised error does not carry the exit code as its code. -/
theorem c3_abnormal_exit_error_fields_swapped :
    ∃ e finalProc,
      superviseFrom websocketServerCommand (fun _ => false)
          (fun _ => some 101) 0 1 = SupOutcome.raisedAbnormal e finalProc ∧
      e.returncode = PyVal.strList websocketServerCommand ∧
      e.cmd = PyVal.int 101 ∧
      e.returncode ≠ PyVal.int 101 :=
  ⟨⟨PyVal.strList websocketServerCommand, PyVal.int 101⟩, ⟨some 101, true⟩,
   rfl, rfl, rfl, by simp⟩

/-- C4: for a captured log [e1, e2, MARKER, e3, e4] in which neither e1
nor e2 is the marker line and only e4 is severe, the evaluation retains
the lines at or after the marker and fails citing exactly [e4], the
entries before the marker contributing nothing; and whenever the marker
is found and no retained line is severe, the evaluation passes. -/
theorem c4_truncation_cites_only_post_marker_severe (e1 e2 e3 e4 : String)
    (h1 : e1 ≠ markerLogLine) (h2 : e2 ≠ markerLogLine)
    (hs1 : isSevere e1 = false) (hs2 : isSevere e2 = false)
    (hs3 : isSevere e3 = false) (hs4 : isSevere e4 = true) :
    evaluateLog [e1, e2, markerLogLine, e3, e4] =
      some (ProbeLogOutcome.failedSevere [e4]) ∧
    ∀ lines i, indexOfLine markerLogLine lines = some i →
      (lines.drop i).filter isSevere = [] →
      evaluateLog lines = some ProbeLogOutcome.passed := by
  constructor
  · have hb1 : (e1 == markerLogLine) = false := beq_eq_false_iff_ne.mpr h1
    have hb2 : (e2 == markerLogLine) = false := beq_eq_false_iff_ne.mpr h2
    have hm : isSevere markerLogLine = false := by decide
    simp [evaluateLog, indexOfLine, hb1, hb2, hm, hs3, hs4, List.filter]
  · intro lines i hidx hfilter
    simp [evaluateLog, hidx, hfilter]

/-- C4 witness: a concrete five-line log with one severe entry after the
marker is failed citing exactly that entry. -/
theorem c4_truncation_cites_only_post_marker_severe_witness :
    evaluateLog ["info: a", "warn: b", markerLogLine, "console.log: ok",
        "console.error: panic"] =
      some (ProbeLogOutcome.failedSevere ["console.error: panic"]) :=
  (c4_truncation_cites_only_post_marker_severe "info: a" "warn: b"
      "console.log: ok" "console.error: panic" (by decide) (by decide)
      (by decide) (by decide) (by decide) (by decide)).1

/-- C5: on every return path of the supervision loop, by cancellation or
by the abnormal-exit raise, the final process handle records an exit
code (the process is no longer running) and has been reaped by a wait,
and a further termination attempt on such a handle is a no-op rather
than an error. -/
theorem c5_every_return_path_terminates_and_reaps (command : List String)
    (token : Nat → Bool) (behavior : Nat → Option Int) (t fuel : Nat) :
    (∀ p, superviseFrom command token behavior t fuel =
        SupOutcome.cancelled p →
        p.exitCode ≠ none ∧ p.reaped = true ∧ sendSigterm p = p) ∧
    (∀ e p, superviseFrom command token behavior t fuel =
        SupOutcome.raisedAbnormal e p →
        p.exitCode ≠ none ∧ p.reaped = true) ∧
    (∀ q : ProcHandle, q.exitCode ≠ none → sendSigterm q = q) := by
  refine ⟨?_, ?_, fun q hq => sendSigterm_noop_of_exited q hq⟩
  · intro p h
    have hp := (superviseFrom_final_handle command token behavior fuel t).1 p h
    exact ⟨hp.1, hp.2, sendSigterm_noop_of_exited p hp.1⟩
  · intro e p h
    exact (superviseFrom_final_handle command token behavior fuel t).2 e p h

/-- C5 witness: a supervisor cancelled on its first tick leaves the
handle terminated at the SIGTERM code, reaped, and immune to a second
termination attempt. -/
theorem c5_every_return_path_terminates_and_reaps_witness :
    (⟨some (-15), true⟩ : ProcHandle).exitCode ≠ none ∧
    (⟨some (-15), true⟩ : ProcHandle).reaped = true ∧
    sendSigterm ⟨some (-15), true⟩ = ⟨some (-15), true⟩ :=
  (c5_every_return_path_terminates_and_reaps [] (fun _ => true)
      (fun _ => none) 0 1).1 ⟨some (-15), true⟩ rfl

/-- Future contents of a run in which the Browser Probe completes first
with Passed and the backend supervisor raises an abnormal-exit failure
only after the first-completed set was taken. -/
def lateBackendCrashResults : Participant → Except FailReason Unit
  | .websocketServer =>
    .error (.abnormalExit ⟨.strList websocketServerCommand, .int 1⟩)
  | _ => .ok ()

/-- C6 counterexample: with the Browser Probe alone in the
first-completed set and the backend future holding an abnormal-exit
failure, the harness exits 0, because only the first-completed futures
have their results retrieved; a managed process exited abnormally yet
the aggregate result is success, refuting the claimed equivalence. -/
theorem c6_late_abnormal_exit_not_surfaced :
    harnessExitCode lateBackendCrashResults [Participant.webdriver] = 0 ∧
    lateBackendCrashResults Participant.websocketServer =
      Except.error (FailReason.abnormalExit
        ⟨PyVal.strList websocketServerCommand, PyVal.int 1⟩) := ⟨rfl, rfl⟩

/-- C6 amended: the harness exit code aggregates exactly the results of
the first-completed set of futures: it is 0 iff every participant in
that set succeeded, and when that set contains failures the exit code is
1 and the failure re-raised is the first-observed one, in the order of
the set; failures stored in futures outside that set are not consulted. -/
theorem c6_exit_code_aggregates_first_completed
    (result : Participant → Except FailReason Unit)
    (done : List Participant) :
    (harnessExitCode result done = 0 ↔ ∀ p ∈ done, result p = Except.ok ()) ∧
    (∀ e, firstFailureIn result done = some e →
        harnessExitCode result done = 1 ∧
        collectDoneResults result done = Except.error e) := by
  constructor
  · cases hc : collectDoneResults result done with
    | ok u =>
      cases u
      simp [harnessExitCode, hc]
      exact (collectDoneResults_ok_iff result done).mp hc
    | error e =>
      simp [harnessExitCode, hc]
      by_contra hno
      push_neg at hno
      have hok := (collectDoneResults_ok_iff result done).mpr hno
      rw [hc] at hok
      simp at hok
  · intro e he
    have hc : collectDoneResults result done = Except.error e :=
      (collectDoneResults_error_iff result e done).mpr he
    exact ⟨by simp [harnessExitCode, hc], hc⟩

/-- C6 witness: with the backend future's abnormal exit inside the
first-completed set, the harness exits 1 and re-raises that failure. -/
theorem c6_exit_code_aggregates_first_completed_witness :
    harnessExitCode lateBackendCrashResults
        [Participant.websocketServer, Participant.webdriver] = 1 ∧
    collectDoneResults lateBackendCrashResults
        [Participant.websocketServer, Participant.webdriver] =
      Except.error (FailReason.abnormalExit
        ⟨PyVal.strList websocketServerCommand, PyVal.int 1⟩) :=
  (c6_exit_code_aggregates_first_completed lateBackendCrashResults
      [Participant.websocketServer, Participant.webdriver]).2 _ rfl

/-- C7: once cancel() has been called on the shared token state, any
sequence of further cancel or is_cancelled operations by any holder
leaves the flag set and is_cancelled answers true; cancel is idempotent
and is_cancelled has no effect on the state. -/
theorem c7_cancellation_sticky_idempotent_pure :
    (∀ (e : PyEvent) (ops : List TokenOp),
        isCancelled (List.foldl tokenStep (cancelSource e) ops) = true) ∧
    (∀ e : PyEvent, cancelSource (cancelSource e) = cancelSource e) ∧
    (∀ e : PyEvent, tokenStep e TokenOp.opQuery = e) := by
  refine ⟨?_, fun e => rfl, fun e => rfl⟩
  intro e ops
  have hc : cancelSource e = ⟨true⟩ := rfl
  rw [hc, foldl_tokenStep_true]
  rfl

/-- C8: a successful connection attempt makes the readiness poller close
the connection and return on that very attempt, so against an open
listener it returns on the first attempt; a trace of nothing but
connection-refused results makes it retry for any number of intervals
without ever returning; any other error on an attempt propagates
immediately as fatal instead of being retried. -/
theorem c8_readiness_poller_attempt_outcomes :
    (∀ (attempt : Nat → AttemptResult) (fuel : Nat),
        attempt 0 = AttemptResult.success →
        pollServerFrom attempt 0 (fuel + 1) = PollOutcome.connected true 1) ∧
    (∀ (attempt : Nat → AttemptResult) (fuel : Nat),
        (∀ n, attempt n = AttemptResult.refused) →
        pollServerFrom attempt 0 fuel = PollOutcome.fuelExhausted) ∧
    (∀ (attempt : Nat → AttemptResult) (t fuel : Nat),
        attempt t = AttemptResult.otherError →
        pollServerFrom attempt t (fuel + 1) = PollOutcome.fatal (t + 1)) := by
  refine ⟨?_, ?_, ?_⟩
  · intro attempt fuel h
    simp [pollServerFrom, h]
  · intro attempt fuel h
    have hall : ∀ f n, pollServerFrom attempt n f = PollOutcome.fuelExhausted := by
      intro f
      induction f with
      | zero => intro n; rfl
      | succ m ih =>
        intro n
        simp [pollServerFrom, h n]
        exact ih (n + 1)
    exact hall fuel 0
  · intro attempt t fuel h
    simp [pollServerFrom, h]

/-- C8 witness: concrete attempt traces for the three behaviours. -/
theorem c8_readiness_poller_attempt_outcomes_witness :
    pollServerFrom (fun _ => AttemptResult.success) 0 (2 + 1) =
      PollOutcome.connected true 1 ∧
    pollServerFrom (fun _ => AttemptResult.refused) 0 7 =
      PollOutcome.fuelExhausted ∧
    pollServerFrom (fun _ => AttemptResult.otherError) 4 (0 + 1) =
      PollOutcome.fatal (4 + 1) :=
  ⟨c8_readiness_poller_attempt_outcomes.1 (fun _ => AttemptResult.success)
      2 rfl,
   c8_readiness_poller_attempt_outcomes.2.1 (fun _ => AttemptResult.refused)
      7 (fun _ => rfl),
   c8_readiness_poller_attempt_outcomes.2.2 (fun _ => AttemptResult.otherError)
      4 0 rfl⟩

/-- C9 counterexample: the wasm-loading-test Coordinator runs at module
level with no interrupt handler, so a KeyboardInterrupt delivered to it
propagates uncaught and the interpreter does not terminate with exit
code 0, refuting the claim for that Coordinator. -/
theorem c9_wasm_coordinator_interrupt_not_exit_zero :
    wasmCoordinatorEntry RunOutcome.keyboardInterrupt ≠
      Termination.exitCode 0 := by decide

/-- C9 amended: the start-simulation entry point catches the interrupt
and answers it with exit code 0, but the wasm-loading-test Coordinator
has no handler, so an interrupt delivered there propagates uncaught
instead of producing a zero-failure exit. -/
theorem c9_interrupt_caught_only_by_start_simulation :
    startSimulationEntry RunOutcome.keyboardInterrupt =
      Termination.exitCode 0 ∧
    wasmCoordinatorEntry RunOutcome.keyboardInterrupt =
      Termination.uncaughtInterrupt := ⟨rfl, rfl⟩

/-- C10: when no captured line equals the sentinel line, the evaluation
step raises (list.index finds no occurrence, embedded as none) and in
particular never returns Passed. -/
theorem c10_missing_marker_raises (lines : List String)
    (h : ∀ l ∈ lines, l ≠ markerLogLine) :
    evaluateLog lines = none ∧
    evaluateLog lines ≠ some ProbeLogOutcome.passed := by
  have hidx : indexOfLine markerLogLine lines = none :=
    indexOfLine_eq_none markerLogLine lines h
  exact ⟨by simp [evaluateLog, hidx], by simp [evaluateLog, hidx]⟩

/-- C10 witness: a concrete log with no sentinel line is rejected. -/
theorem c10_missing_marker_raises_witness :
    evaluateLog ["console.log: hello", "console.error: boom"] = none ∧
    evaluateLog ["console.log: hello", "console.error: boom"] ≠
      some ProbeLogOutcome.passed :=
  c10_missing_marker_raises ["console.log: hello", "console.error: boom"]
    (by decide)

end Myelin
